import Mathlib

/-!
# Capture-then-analyse pipeline (`main.go`)

A shallow embedding of the three Go functions `startTshark`, `displayPcapFile`
and `main`.  Every interaction with the outside world (printing, creating and
closing files, starting and waiting on external commands, sleeping) is recorded
as an `Event`; a run of a function is the list of events it performs, in order.
The outcomes of the fallible calls are read from a `World`, over which all
theorems quantify.
-/

namespace TsharkPipeline

/-- The four filter jobs of `displayPcapFile`, in source order. -/
inductive Job where
  | localSend
  | localReceive
  | wlanSend
  | wlanReceive
deriving DecidableEq

/-- An open file (`*os.File`), identified by the path it was created under. -/
structure File where
  name : String
deriving DecidableEq

/-- An external command (`*exec.Cmd`): program name, arguments after the
program name, and the file its standard output is redirected to (`none` is
Go's nil `Stdout`). -/
structure Cmd where
  name : String
  args : List String
  Stdout : Option File
deriving DecidableEq

/-- Go's `time.Duration`: a number of nanoseconds. -/
abbrev Duration := Int

/-- The constant `time.Second`. -/
def Second : Duration := 1000000000

/-- One observable action of a run.  A fallible call carries the error it
returned (`none` is Go's nil error). -/
inductive Event where
  | println (args : List String)
  | printf (format : String) (args : List String)
  | create (name : String) (err : Option String)
  | close (file : File)
  | start (cmd : Cmd) (err : Option String)
  | wait (cmd : Cmd) (err : Option String)
  | sleep (d : Duration)
deriving DecidableEq

/-- The outcomes of the fallible calls of one run: the error returned by
`cmd.Start` in `startTshark`, and for each job the errors returned by its
`os.Create`, `Start` and `Wait` call (`none` is success). -/
structure World where
  captureStart : Option String
  create : Job → Option String
  start : Job → Option String
  wait : Job → Option String

/-- The state of one function activation: the events performed so far and the
calls registered with `defer`, most recently registered first. -/
structure Frame where
  trace : List Event
  deferred : List Event

/-- Function bodies are state transformers on the activation frame. -/
abbrev Go := StateM Frame

/-- Perform one action. -/
def emit (e : Event) : Go Unit :=
  modify fun s => { s with trace := s.trace ++ [e] }

/-- The statement `defer e`: register a call to run when the function returns. -/
def deferCall (e : Event) : Go Unit :=
  modify fun s => { s with deferred := e :: s.deferred }

/-- Run a function body in a fresh frame; on return (by any path) the deferred
calls run, last registered first. -/
def runFrame (body : Go Unit) : List Event :=
  let s := (body.run { trace := [], deferred := [] }).2
  s.trace ++ s.deferred

/-- Call a function from inside another one: its events, deferred calls
included, happen at the call site. -/
def call (events : List Event) : Go Unit :=
  modify fun s => { s with trace := s.trace ++ events }

/-- The call `fmt.Println(args...)`. -/
def fmtPrintln (args : List String) : Go Unit :=
  emit (Event.println args)

/-- The call `fmt.Printf(format, args...)`. -/
def fmtPrintf (format : String) (args : List String) : Go Unit :=
  emit (Event.printf format args)

/-- The call `os.Create(name)`, with the outcome `err`: the file and a nil
error, or a nil file and the error. -/
def osCreate (name : String) (err : Option String) : Go (Option File × Option String) := do
  emit (Event.create name err)
  match err with
  | none => return (some { name := name }, none)
  | some e => return (none, some e)

/-- The statement `defer f.Close()`. -/
def deferClose (f : Option File) : Go Unit :=
  match f with
  | some file => deferCall (Event.close file)
  | none => pure ()

/-- The call `exec.Command(name, args...)`. -/
def execCommand (name : String) (args : List String) : Cmd :=
  { name := name, args := args, Stdout := none }

/-- The call `cmd.Start()`, with the outcome `err`. -/
def Cmd.Start (cmd : Cmd) (err : Option String) : Go (Option String) := do
  emit (Event.start cmd err)
  return err

/-- The call `cmd.Wait()`, with the outcome `err`. -/
def Cmd.Wait (cmd : Cmd) (err : Option String) : Go (Option String) := do
  emit (Event.wait cmd err)
  return err

/-- The call `time.Sleep(d)`. -/
def timeSleep (d : Duration) : Go Unit :=
  emit (Event.sleep d)

/-- The command built in `startTshark`. -/
def captureCmd : Cmd :=
  execCommand "tshark" ["-i", "any", "-w", "capture.pcap", "-c", "1000"]

/-- Body of `startTshark`. -/
def startTsharkBody (w : World) : Go Unit := do
  let cmd := captureCmd
  let err ← cmd.Start w.captureStart
  if let some e := err then
    fmtPrintf "Error starting TShark: %v\n" [e]
    return
  fmtPrintln ["TShark started. Capturing 1000 packets to capture.pcap..."]

/-- The function `startTshark`. -/
def startTshark (w : World) : List Event :=
  runFrame (startTsharkBody w)

/-- The command `localSendCmd` of `displayPcapFile`, with its `Stdout` set. -/
def localSendCmd (filename localIP : String) (localSendFile : Option File) : Cmd :=
  { execCommand "tshark" ["-r", filename, "-T", "json", "-Y", "ip.src == " ++ localIP] with
    Stdout := localSendFile }

/-- The command `localReceiveCmd` of `displayPcapFile`, with its `Stdout` set. -/
def localReceiveCmd (filename localIP : String) (localReceiveFile : Option File) : Cmd :=
  { execCommand "tshark" ["-r", filename, "-T", "json", "-Y", "ip.dst == " ++ localIP] with
    Stdout := localReceiveFile }

/-- The command `wlanSendCmd` of `displayPcapFile`, with its `Stdout` set. -/
def wlanSendCmd (filename wlanIP : String) (wlanSendFile : Option File) : Cmd :=
  { execCommand "tshark" ["-r", filename, "-T", "json", "-Y", "ip.src == " ++ wlanIP] with
    Stdout := wlanSendFile }

/-- The command `wlanReceiveCmd` of `displayPcapFile`, with its `Stdout` set. -/
def wlanReceiveCmd (filename wlanIP : String) (wlanReceiveFile : Option File) : Cmd :=
  { execCommand "tshark" ["-r", filename, "-T", "json", "-Y", "ip.dst == " ++ wlanIP] with
    Stdout := wlanReceiveFile }

/-- Body of `displayPcapFile`. -/
def displayPcapFileBody (w : World) (filename localIP wlanIP : String) : Go Unit := do
  fmtPrintln ["Analyzing file", filename]

  let (localSendFile, err) ← osCreate "local-send.json" (w.create Job.localSend)
  if let some e := err then
    fmtPrintf "Error creating local-send.json: %v\n" [e]
    return
  deferClose localSendFile

  let (localReceiveFile, err) ← osCreate "local-receive.json" (w.create Job.localReceive)
  if let some e := err then
    fmtPrintf "Error creating local-receive.json: %v\n" [e]
    return
  deferClose localReceiveFile

  let (wlanSendFile, err) ← osCreate "wlan0-send.json" (w.create Job.wlanSend)
  if let some e := err then
    fmtPrintf "Error creating wlan0-send.json: %v\n" [e]
    return
  deferClose wlanSendFile

  let (wlanReceiveFile, err) ← osCreate "wlan0-receive.json" (w.create Job.wlanReceive)
  if let some e := err then
    fmtPrintf "Error creating wlan0-receive.json: %v\n" [e]
    return
  deferClose wlanReceiveFile

  let localSendCmd := localSendCmd filename localIP localSendFile
  let localReceiveCmd := localReceiveCmd filename localIP localReceiveFile
  let wlanSendCmd := wlanSendCmd filename wlanIP wlanSendFile
  let wlanReceiveCmd := wlanReceiveCmd filename wlanIP wlanReceiveFile

  let err ← localSendCmd.Start (w.start Job.localSend)
  if let some e := err then
    fmtPrintf "Error starting local send traffic command: %v\n" [e]
    return

  let err ← localReceiveCmd.Start (w.start Job.localReceive)
  if let some e := err then
    fmtPrintf "Error starting local receive traffic command: %v\n" [e]
    return

  let err ← wlanSendCmd.Start (w.start Job.wlanSend)
  if let some e := err then
    fmtPrintf "Error starting wlan0 send traffic command: %v\n" [e]
    return

  let err ← wlanReceiveCmd.Start (w.start Job.wlanReceive)
  if let some e := err then
    fmtPrintf "Error starting wlan0 receive traffic command: %v\n" [e]
    return

  let err ← localSendCmd.Wait (w.wait Job.localSend)
  if let some e := err then
    fmtPrintf "Error capturing local send traffic: %v\n" [e]
    return

  let err ← localReceiveCmd.Wait (w.wait Job.localReceive)
  if let some e := err then
    fmtPrintf "Error capturing local receive traffic: %v\n" [e]
    return

  let err ← wlanSendCmd.Wait (w.wait Job.wlanSend)
  if let some e := err then
    fmtPrintf "Error capturing wlan0 send traffic: %v\n" [e]
    return

  let err ← wlanReceiveCmd.Wait (w.wait Job.wlanReceive)
  if let some e := err then
    fmtPrintf "Error capturing wlan0 receive traffic: %v\n" [e]
    return

  fmtPrintln ["Traffic data captured:"]
  fmtPrintln ["- 'local-send.json'"]
  fmtPrintln ["- 'local-receive.json'"]
  fmtPrintln ["- 'wlan0-send.json'"]
  fmtPrintln ["- 'wlan0-receive.json'"]

/-- The function `displayPcapFile`. -/
def displayPcapFile (w : World) (filename localIP wlanIP : String) : List Event :=
  runFrame (displayPcapFileBody w filename localIP wlanIP)

/-- Body of `main`. -/
def mainBody (w : World) : Go Unit := do
  call (startTshark w)
  fmtPrintln ["Waiting for TShark capture to finish..."]
  timeSleep (15 * Second)
  let localIP := "127.0.0.1"
  let wlanIP := "192.168.51.172"
  call (displayPcapFile w "capture.pcap" localIP wlanIP)

/-- The function `main`. -/
def main (w : World) : List Event :=
  runFrame (mainBody w)

/-- The world in which every call succeeds. -/
def allOk : World :=
  { captureStart := none, create := fun _ => none, start := fun _ => none, wait := fun _ => none }

/-- The three kinds of fallible step of `displayPcapFile`. -/
inductive Phase where
  | create
  | start
  | wait
deriving DecidableEq

/-- A fallible step of `displayPcapFile`: which call, for which job. -/
structure Step where
  phase : Phase
  job : Job
deriving DecidableEq

/-- The twelve fallible steps in the order the source performs them. -/
def stepOrder : List Step :=
  [⟨Phase.create, Job.localSend⟩, ⟨Phase.create, Job.localReceive⟩,
   ⟨Phase.create, Job.wlanSend⟩, ⟨Phase.create, Job.wlanReceive⟩,
   ⟨Phase.start, Job.localSend⟩, ⟨Phase.start, Job.localReceive⟩,
   ⟨Phase.start, Job.wlanSend⟩, ⟨Phase.start, Job.wlanReceive⟩,
   ⟨Phase.wait, Job.localSend⟩, ⟨Phase.wait, Job.localReceive⟩,
   ⟨Phase.wait, Job.wlanSend⟩, ⟨Phase.wait, Job.wlanReceive⟩]

/-- The outcome the world gives to a step. -/
def World.outcome (w : World) (s : Step) : Option String :=
  match s.phase with
  | Phase.create => w.create s.job
  | Phase.start => w.start s.job
  | Phase.wait => w.wait s.job

/-- The path each job's output file is created under. -/
def sinkName : Job → String
  | Job.localSend => "local-send.json"
  | Job.localReceive => "local-receive.json"
  | Job.wlanSend => "wlan0-send.json"
  | Job.wlanReceive => "wlan0-receive.json"

/-- The command of each job, once its output file has been created. -/
def jobCmd (filename localIP wlanIP : String) : Job → Cmd
  | Job.localSend => localSendCmd filename localIP (some ⟨"local-send.json"⟩)
  | Job.localReceive => localReceiveCmd filename localIP (some ⟨"local-receive.json"⟩)
  | Job.wlanSend => wlanSendCmd filename wlanIP (some ⟨"wlan0-send.json"⟩)
  | Job.wlanReceive => wlanReceiveCmd filename wlanIP (some ⟨"wlan0-receive.json"⟩)

/-- The event a step performs, given its outcome. -/
def stepEvent (filename localIP wlanIP : String) (s : Step) (err : Option String) : Event :=
  match s.phase with
  | Phase.create => Event.create (sinkName s.job) err
  | Phase.start => Event.start (jobCmd filename localIP wlanIP s.job) err
  | Phase.wait => Event.wait (jobCmd filename localIP wlanIP s.job) err

/-- The format string of the message the source prints when a step fails. -/
def errorFormat : Step → String
  | ⟨Phase.create, Job.localSend⟩ => "Error creating local-send.json: %v\n"
  | ⟨Phase.create, Job.localReceive⟩ => "Error creating local-receive.json: %v\n"
  | ⟨Phase.create, Job.wlanSend⟩ => "Error creating wlan0-send.json: %v\n"
  | ⟨Phase.create, Job.wlanReceive⟩ => "Error creating wlan0-receive.json: %v\n"
  | ⟨Phase.start, Job.localSend⟩ => "Error starting local send traffic command: %v\n"
  | ⟨Phase.start, Job.localReceive⟩ => "Error starting local receive traffic command: %v\n"
  | ⟨Phase.start, Job.wlanSend⟩ => "Error starting wlan0 send traffic command: %v\n"
  | ⟨Phase.start, Job.wlanReceive⟩ => "Error starting wlan0 receive traffic command: %v\n"
  | ⟨Phase.wait, Job.localSend⟩ => "Error capturing local send traffic: %v\n"
  | ⟨Phase.wait, Job.localReceive⟩ => "Error capturing local receive traffic: %v\n"
  | ⟨Phase.wait, Job.wlanSend⟩ => "Error capturing wlan0 send traffic: %v\n"
  | ⟨Phase.wait, Job.wlanReceive⟩ => "Error capturing wlan0 receive traffic: %v\n"

/-- The closing of the files opened by the steps `done`, last opened first. -/
def closesOf (done : List Step) : List Event :=
  (done.filterMap fun s =>
    match s.phase with
    | Phase.create => some (Event.close ⟨sinkName s.job⟩)
    | _ => none).reverse

/-- The five lines of the success summary. -/
def successSummary : List Event :=
  [Event.println ["Traffic data captured:"],
   Event.println ["- 'local-send.json'"],
   Event.println ["- 'local-receive.json'"],
   Event.println ["- 'wlan0-send.json'"],
   Event.println ["- 'wlan0-receive.json'"]]

/-- The run in which the first `k` steps succeed and the next step `s` fails
with error `e`. -/
def failTrace (filename localIP wlanIP : String) (k : Nat) (s : Step) (e : String) : List Event :=
  [Event.println ["Analyzing file", filename]]
    ++ (stepOrder.take k).map (fun t => stepEvent filename localIP wlanIP t none)
    ++ [stepEvent filename localIP wlanIP s (some e), Event.printf (errorFormat s) [e]]
    ++ closesOf (stepOrder.take k)

/-- The run in which all twelve steps succeed. -/
def okTrace (filename localIP wlanIP : String) : List Event :=
  [Event.println ["Analyzing file", filename]]
    ++ stepOrder.map (fun t => stepEvent filename localIP wlanIP t none)
    ++ successSummary
    ++ closesOf stepOrder

/-- Whether an event is a call to `os.Create`. -/
def Event.isCreate : Event → Bool
  | Event.create _ _ => true
  | _ => false

/-- Whether an event is a call to `Start`. -/
def Event.isStart : Event → Bool
  | Event.start _ _ => true
  | _ => false

/-- Whether an event is a call to `Wait`. -/
def Event.isWait : Event → Bool
  | Event.wait _ _ => true
  | _ => false

/-- Whether an event is a call to `fmt.Printf`. -/
def Event.isPrintf : Event → Bool
  | Event.printf _ _ => true
  | _ => false

/-- The four jobs in source order. -/
def jobOrder : List Job :=
  [Job.localSend, Job.localReceive, Job.wlanSend, Job.wlanReceive]

/-- The commands on which `Start` is called in a run, in order. -/
def startedCmds (t : List Event) : List Cmd :=
  t.filterMap fun ev =>
    match ev with
    | Event.start c _ => some c
    | _ => none

/-- The commands on which `Wait` is called in a run, in order. -/
def waitedCmds (t : List Event) : List Cmd :=
  t.filterMap fun ev =>
    match ev with
    | Event.wait c _ => some c
    | _ => none

/-- The paths passed to `os.Create` in a run, in order. -/
def createdNames (t : List Event) : List String :=
  t.filterMap fun ev =>
    match ev with
    | Event.create n _ => some n
    | _ => none

/-- The four command lines the filter jobs are claimed to run: program name
and arguments, for source and destination matches on the local and on the
secondary address. -/
def filterSpecs (filename localIP wlanIP : String) : List (String × List String) :=
  [("tshark", ["-r", filename, "-T", "json", "-Y", "ip.src == " ++ localIP]),
   ("tshark", ["-r", filename, "-T", "json", "-Y", "ip.dst == " ++ localIP]),
   ("tshark", ["-r", filename, "-T", "json", "-Y", "ip.src == " ++ wlanIP]),
   ("tshark", ["-r", filename, "-T", "json", "-Y", "ip.dst == " ++ wlanIP])]

/-- The direction a predicate selects. -/
inductive Direction where
  | send
  | receive
deriving DecidableEq, Repr

/-- The reference address a predicate matches against. -/
inductive Scope where
  | localhost
  | secondary
deriving DecidableEq, Repr

/-- The direction of each job. -/
def Job.direction : Job → Direction
  | Job.localSend => Direction.send
  | Job.localReceive => Direction.receive
  | Job.wlanSend => Direction.send
  | Job.wlanReceive => Direction.receive

/-- The scope of each job. -/
def Job.scope : Job → Scope
  | Job.localSend => Scope.localhost
  | Job.localReceive => Scope.localhost
  | Job.wlanSend => Scope.secondary
  | Job.wlanReceive => Scope.secondary

/-- The packet field a direction matches: the source address for sent
traffic, the destination address for received traffic. -/
def Direction.field : Direction → String
  | Direction.send => "ip.src"
  | Direction.receive => "ip.dst"

/-- The word for a direction in a sink name. -/
def Direction.word : Direction → String
  | Direction.send => "send"
  | Direction.receive => "receive"

/-- The word for a scope in a sink name. -/
def Scope.word : Scope → String
  | Scope.localhost => "local"
  | Scope.secondary => "wlan0"

/-- The address a scope stands for. -/
def Scope.address (localIP wlanIP : String) : Scope → String
  | Scope.localhost => localIP
  | Scope.secondary => wlanIP

/-- The sink name derived from a predicate: `{scope}-{direction}.json`. -/
def derivedSinkName (s : Scope) (d : Direction) : String :=
  s.word ++ "-" ++ d.word ++ ".json"

/-- The four closings of a run that opened all four files, last opened first. -/
def allCloses : List Event :=
  [Event.close ⟨"wlan0-receive.json"⟩, Event.close ⟨"wlan0-send.json"⟩,
   Event.close ⟨"local-receive.json"⟩, Event.close ⟨"local-send.json"⟩]

/-- A world in which creating the third output file fails. -/
def thirdCreateFails : World :=
  { captureStart := none
    create := fun j => if j = Job.wlanSend then some "permission denied" else none
    start := fun _ => none
    wait := fun _ => none }

/-- A world in which the first filter command exits with an error. -/
def firstWaitFails : World :=
  { captureStart := none
    create := fun _ => none
    start := fun _ => none
    wait := fun j => if j = Job.localSend then some "exit status 2" else none }

/-- A world in which the capture process cannot be started and everything
else succeeds. -/
def captureFails : World :=
  { captureStart := some "executable file not found"
    create := fun _ => none
    start := fun _ => none
    wait := fun _ => none }

/-! ## Shared lemmas -/

set_option maxHeartbeats 4000000 in
/-- Every run of `displayPcapFile` is either the run of a first failing step
or the all-success run. -/
theorem displayPcapFile_path (w : World) (f l a : String) :
    (∃ k s e, k < 12 ∧ stepOrder[k]? = some s
        ∧ (∀ t ∈ stepOrder.take k, w.outcome t = none) ∧ w.outcome s = some e
        ∧ displayPcapFile w f l a = failTrace f l a k s e)
      ∨ ((∀ t ∈ stepOrder, w.outcome t = none)
        ∧ displayPcapFile w f l a = okTrace f l a) := by
  rcases h1 : w.create Job.localSend with _ | e
  rcases h2 : w.create Job.localReceive with _ | e
  rcases h3 : w.create Job.wlanSend with _ | e
  rcases h4 : w.create Job.wlanReceive with _ | e
  rcases h5 : w.start Job.localSend with _ | e
  rcases h6 : w.start Job.localReceive with _ | e
  rcases h7 : w.start Job.wlanSend with _ | e
  rcases h8 : w.start Job.wlanReceive with _ | e
  rcases h9 : w.wait Job.localSend with _ | e
  rcases h10 : w.wait Job.localReceive with _ | e
  rcases h11 : w.wait Job.wlanSend with _ | e
  rcases h12 : w.wait Job.wlanReceive with _ | e
  · right
    simp [displayPcapFile, runFrame, displayPcapFileBody, osCreate, emit, fmtPrintf, fmtPrintln,
      deferClose, deferCall, Cmd.Start, Cmd.Wait, StateT.run, bind, StateT.bind, modify,
      modifyGet, MonadStateOf.modifyGet, StateT.modifyGet, pure, StateT.pure,
      stepOrder, World.outcome, okTrace, stepEvent, closesOf, sinkName, jobCmd, successSummary, *]
  all_goals left
  · refine ⟨11, _, e, by decide, rfl, ?_⟩
    simp [displayPcapFile, runFrame, displayPcapFileBody, osCreate, emit, fmtPrintf, fmtPrintln,
      deferClose, deferCall, Cmd.Start, Cmd.Wait, StateT.run, bind, StateT.bind, modify,
      modifyGet, MonadStateOf.modifyGet, StateT.modifyGet, pure, StateT.pure,
      stepOrder, World.outcome, failTrace, stepEvent, closesOf, sinkName, jobCmd, errorFormat, *]
  · refine ⟨10, _, e, by decide, rfl, ?_⟩
    simp [displayPcapFile, runFrame, displayPcapFileBody, osCreate, emit, fmtPrintf, fmtPrintln,
      deferClose, deferCall, Cmd.Start, Cmd.Wait, StateT.run, bind, StateT.bind, modify,
      modifyGet, MonadStateOf.modifyGet, StateT.modifyGet, pure, StateT.pure,
      stepOrder, World.outcome, failTrace, stepEvent, closesOf, sinkName, jobCmd, errorFormat, *]
  · refine ⟨9, _, e, by decide, rfl, ?_⟩
    simp [displayPcapFile, runFrame, displayPcapFileBody, osCreate, emit, fmtPrintf, fmtPrintln,
      deferClose, deferCall, Cmd.Start, Cmd.Wait, StateT.run, bind, StateT.bind, modify,
      modifyGet, MonadStateOf.modifyGet, StateT.modifyGet, pure, StateT.pure,
      stepOrder, World.outcome, failTrace, stepEvent, closesOf, sinkName, jobCmd, errorFormat, *]
  · refine ⟨8, _, e, by decide, rfl, ?_⟩
    simp [displayPcapFile, runFrame, displayPcapFileBody, osCreate, emit, fmtPrintf, fmtPrintln,
      deferClose, deferCall, Cmd.Start, Cmd.Wait, StateT.run, bind, StateT.bind, modify,
      modifyGet, MonadStateOf.modifyGet, StateT.modifyGet, pure, StateT.pure,
      stepOrder, World.outcome, failTrace, stepEvent, closesOf, sinkName, jobCmd, errorFormat, *]
  · refine ⟨7, _, e, by decide, rfl, ?_⟩
    simp [displayPcapFile, runFrame, displayPcapFileBody, osCreate, emit, fmtPrintf, fmtPrintln,
      deferClose, deferCall, Cmd.Start, Cmd.Wait, StateT.run, bind, StateT.bind, modify,
      modifyGet, MonadStateOf.modifyGet, StateT.modifyGet, pure, StateT.pure,
      stepOrder, World.outcome, failTrace, stepEvent, closesOf, sinkName, jobCmd, errorFormat, *]
  · refine ⟨6, _, e, by decide, rfl, ?_⟩
    simp [displayPcapFile, runFrame, displayPcapFileBody, osCreate, emit, fmtPrintf, fmtPrintln,
      deferClose, deferCall, Cmd.Start, Cmd.Wait, StateT.run, bind, StateT.bind, modify,
      modifyGet, MonadStateOf.modifyGet, StateT.modifyGet, pure, StateT.pure,
      stepOrder, World.outcome, failTrace, stepEvent, closesOf, sinkName, jobCmd, errorFormat, *]
  · refine ⟨5, _, e, by decide, rfl, ?_⟩
    simp [displayPcapFile, runFrame, displayPcapFileBody, osCreate, emit, fmtPrintf, fmtPrintln,
      deferClose, deferCall, Cmd.Start, Cmd.Wait, StateT.run, bind, StateT.bind, modify,
      modifyGet, MonadStateOf.modifyGet, StateT.modifyGet, pure, StateT.pure,
      stepOrder, World.outcome, failTrace, stepEvent, closesOf, sinkName, jobCmd, errorFormat, *]
  · refine ⟨4, _, e, by decide, rfl, ?_⟩
    simp [displayPcapFile, runFrame, displayPcapFileBody, osCreate, emit, fmtPrintf, fmtPrintln,
      deferClose, deferCall, Cmd.Start, Cmd.Wait, StateT.run, bind, StateT.bind, modify,
      modifyGet, MonadStateOf.modifyGet, StateT.modifyGet, pure, StateT.pure,
      stepOrder, World.outcome, failTrace, stepEvent, closesOf, sinkName, jobCmd, errorFormat, *]
  · refine ⟨3, _, e, by decide, rfl, ?_⟩
    simp [displayPcapFile, runFrame, displayPcapFileBody, osCreate, emit, fmtPrintf, fmtPrintln,
      deferClose, deferCall, Cmd.Start, Cmd.Wait, StateT.run, bind, StateT.bind, modify,
      modifyGet, MonadStateOf.modifyGet, StateT.modifyGet, pure, StateT.pure,
      stepOrder, World.outcome, failTrace, stepEvent, closesOf, sinkName, jobCmd, errorFormat, *]
  · refine ⟨2, _, e, by decide, rfl, ?_⟩
    simp [displayPcapFile, runFrame, displayPcapFileBody, osCreate, emit, fmtPrintf, fmtPrintln,
      deferClose, deferCall, Cmd.Start, Cmd.Wait, StateT.run, bind, StateT.bind, modify,
      modifyGet, MonadStateOf.modifyGet, StateT.modifyGet, pure, StateT.pure,
      stepOrder, World.outcome, failTrace, stepEvent, closesOf, sinkName, jobCmd, errorFormat, *]
  · refine ⟨1, _, e, by decide, rfl, ?_⟩
    simp [displayPcapFile, runFrame, displayPcapFileBody, osCreate, emit, fmtPrintf, fmtPrintln,
      deferClose, deferCall, Cmd.Start, Cmd.Wait, StateT.run, bind, StateT.bind, modify,
      modifyGet, MonadStateOf.modifyGet, StateT.modifyGet, pure, StateT.pure,
      stepOrder, World.outcome, failTrace, stepEvent, closesOf, sinkName, jobCmd, errorFormat, *]
  · refine ⟨0, _, e, by decide, rfl, ?_⟩
    simp [displayPcapFile, runFrame, displayPcapFileBody, osCreate, emit, fmtPrintf, fmtPrintln,
      deferClose, deferCall, Cmd.Start, Cmd.Wait, StateT.run, bind, StateT.bind, modify,
      modifyGet, MonadStateOf.modifyGet, StateT.modifyGet, pure, StateT.pure,
      stepOrder, World.outcome, failTrace, stepEvent, closesOf, sinkName, jobCmd, errorFormat, *]

/-- The `Start` calls of a run are made on the four job commands, in job order. -/
theorem displayPcapFile_started (w : World) (f l a : String) :
    ∃ n, startedCmds (displayPcapFile w f l a) = (jobOrder.map (jobCmd f l a)).take n
      ∧ ((∀ j, w.create j = none ∧ w.start j = none) → n = 4) := by
  rcases displayPcapFile_path w f l a with ⟨k, s, e, hk, hs, hpre, hfail, ht⟩ | ⟨hall, ht⟩
  · rw [ht]
    interval_cases k <;> simp [stepOrder] at hs <;> subst hs <;>
      simp [stepOrder, World.outcome] at hpre hfail
    · exact ⟨0, by simp [failTrace, okTrace, successSummary, stepOrder, stepEvent, closesOf, sinkName, jobOrder, startedCmds], fun hj => by simp_all⟩
    · exact ⟨0, by simp [failTrace, okTrace, successSummary, stepOrder, stepEvent, closesOf, sinkName, jobOrder, startedCmds], fun hj => by simp_all⟩
    · exact ⟨0, by simp [failTrace, okTrace, successSummary, stepOrder, stepEvent, closesOf, sinkName, jobOrder, startedCmds], fun hj => by simp_all⟩
    · exact ⟨0, by simp [failTrace, okTrace, successSummary, stepOrder, stepEvent, closesOf, sinkName, jobOrder, startedCmds], fun hj => by simp_all⟩
    · exact ⟨1, by simp [failTrace, okTrace, successSummary, stepOrder, stepEvent, closesOf, sinkName, jobOrder, startedCmds], fun hj => by simp_all⟩
    · exact ⟨2, by simp [failTrace, okTrace, successSummary, stepOrder, stepEvent, closesOf, sinkName, jobOrder, startedCmds], fun hj => by simp_all⟩
    · exact ⟨3, by simp [failTrace, okTrace, successSummary, stepOrder, stepEvent, closesOf, sinkName, jobOrder, startedCmds], fun hj => by simp_all⟩
    · exact ⟨4, by simp [failTrace, okTrace, successSummary, stepOrder, stepEvent, closesOf, sinkName, jobOrder, startedCmds], fun _ => rfl⟩
    · exact ⟨4, by simp [failTrace, okTrace, successSummary, stepOrder, stepEvent, closesOf, sinkName, jobOrder, startedCmds], fun _ => rfl⟩
    · exact ⟨4, by simp [failTrace, okTrace, successSummary, stepOrder, stepEvent, closesOf, sinkName, jobOrder, startedCmds], fun _ => rfl⟩
    · exact ⟨4, by simp [failTrace, okTrace, successSummary, stepOrder, stepEvent, closesOf, sinkName, jobOrder, startedCmds], fun _ => rfl⟩
    · exact ⟨4, by simp [failTrace, okTrace, successSummary, stepOrder, stepEvent, closesOf, sinkName, jobOrder, startedCmds], fun _ => rfl⟩
  · rw [ht]
    exact ⟨4, by simp [failTrace, okTrace, successSummary, stepOrder, stepEvent, closesOf, sinkName, jobOrder, startedCmds], fun _ => rfl⟩

/-- The `Wait` calls of a run are made on the four job commands, in job order. -/
theorem displayPcapFile_waited (w : World) (f l a : String) :
    ∃ n, waitedCmds (displayPcapFile w f l a) = (jobOrder.map (jobCmd f l a)).take n
      ∧ ((∀ j, w.create j = none ∧ w.start j = none ∧ w.wait j = none) → n = 4) := by
  rcases displayPcapFile_path w f l a with ⟨k, s, e, hk, hs, hpre, hfail, ht⟩ | ⟨hall, ht⟩
  · rw [ht]
    interval_cases k <;> simp [stepOrder] at hs <;> subst hs <;>
      simp [stepOrder, World.outcome] at hpre hfail
    · exact ⟨0, by simp [failTrace, okTrace, successSummary, stepOrder, stepEvent, closesOf, sinkName, jobOrder, waitedCmds], fun hj => by simp_all⟩
    · exact ⟨0, by simp [failTrace, okTrace, successSummary, stepOrder, stepEvent, closesOf, sinkName, jobOrder, waitedCmds], fun hj => by simp_all⟩
    · exact ⟨0, by simp [failTrace, okTrace, successSummary, stepOrder, stepEvent, closesOf, sinkName, jobOrder, waitedCmds], fun hj => by simp_all⟩
    · exact ⟨0, by simp [failTrace, okTrace, successSummary, stepOrder, stepEvent, closesOf, sinkName, jobOrder, waitedCmds], fun hj => by simp_all⟩
    · exact ⟨0, by simp [failTrace, okTrace, successSummary, stepOrder, stepEvent, closesOf, sinkName, jobOrder, waitedCmds], fun hj => by simp_all⟩
    · exact ⟨0, by simp [failTrace, okTrace, successSummary, stepOrder, stepEvent, closesOf, sinkName, jobOrder, waitedCmds], fun hj => by simp_all⟩
    · exact ⟨0, by simp [failTrace, okTrace, successSummary, stepOrder, stepEvent, closesOf, sinkName, jobOrder, waitedCmds], fun hj => by simp_all⟩
    · exact ⟨0, by simp [failTrace, okTrace, successSummary, stepOrder, stepEvent, closesOf, sinkName, jobOrder, waitedCmds], fun hj => by simp_all⟩
    · exact ⟨1, by simp [failTrace, okTrace, successSummary, stepOrder, stepEvent, closesOf, sinkName, jobOrder, waitedCmds], fun hj => by simp_all⟩
    · exact ⟨2, by simp [failTrace, okTrace, successSummary, stepOrder, stepEvent, closesOf, sinkName, jobOrder, waitedCmds], fun hj => by simp_all⟩
    · exact ⟨3, by simp [failTrace, okTrace, successSummary, stepOrder, stepEvent, closesOf, sinkName, jobOrder, waitedCmds], fun hj => by simp_all⟩
    · exact ⟨4, by simp [failTrace, okTrace, successSummary, stepOrder, stepEvent, closesOf, sinkName, jobOrder, waitedCmds], fun _ => rfl⟩
  · rw [ht]
    exact ⟨4, by simp [failTrace, okTrace, successSummary, stepOrder, stepEvent, closesOf, sinkName, jobOrder, waitedCmds], fun _ => rfl⟩

/-- The `os.Create` calls of a run are made on the four sink paths, in job order. -/
theorem displayPcapFile_created (w : World) (f l a : String) :
    ∃ n, createdNames (displayPcapFile w f l a) = (jobOrder.map sinkName).take n
      ∧ ((∀ j, w.create j = none) → n = 4) := by
  rcases displayPcapFile_path w f l a with ⟨k, s, e, hk, hs, hpre, hfail, ht⟩ | ⟨hall, ht⟩
  · rw [ht]
    interval_cases k <;> simp [stepOrder] at hs <;> subst hs <;>
      simp [stepOrder, World.outcome] at hpre hfail
    · exact ⟨1, by simp [failTrace, okTrace, successSummary, stepOrder, stepEvent, closesOf, sinkName, jobOrder, createdNames], fun hj => by simp_all⟩
    · exact ⟨2, by simp [failTrace, okTrace, successSummary, stepOrder, stepEvent, closesOf, sinkName, jobOrder, createdNames], fun hj => by simp_all⟩
    · exact ⟨3, by simp [failTrace, okTrace, successSummary, stepOrder, stepEvent, closesOf, sinkName, jobOrder, createdNames], fun hj => by simp_all⟩
    · exact ⟨4, by simp [failTrace, okTrace, successSummary, stepOrder, stepEvent, closesOf, sinkName, jobOrder, createdNames], fun _ => rfl⟩
    · exact ⟨4, by simp [failTrace, okTrace, successSummary, stepOrder, stepEvent, closesOf, sinkName, jobOrder, createdNames], fun _ => rfl⟩
    · exact ⟨4, by simp [failTrace, okTrace, successSummary, stepOrder, stepEvent, closesOf, sinkName, jobOrder, createdNames], fun _ => rfl⟩
    · exact ⟨4, by simp [failTrace, okTrace, successSummary, stepOrder, stepEvent, closesOf, sinkName, jobOrder, createdNames], fun _ => rfl⟩
    · exact ⟨4, by simp [failTrace, okTrace, successSummary, stepOrder, stepEvent, closesOf, sinkName, jobOrder, createdNames], fun _ => rfl⟩
    · exact ⟨4, by simp [failTrace, okTrace, successSummary, stepOrder, stepEvent, closesOf, sinkName, jobOrder, createdNames], fun _ => rfl⟩
    · exact ⟨4, by simp [failTrace, okTrace, successSummary, stepOrder, stepEvent, closesOf, sinkName, jobOrder, createdNames], fun _ => rfl⟩
    · exact ⟨4, by simp [failTrace, okTrace, successSummary, stepOrder, stepEvent, closesOf, sinkName, jobOrder, createdNames], fun _ => rfl⟩
    · exact ⟨4, by simp [failTrace, okTrace, successSummary, stepOrder, stepEvent, closesOf, sinkName, jobOrder, createdNames], fun _ => rfl⟩
  · rw [ht]
    exact ⟨4, by simp [failTrace, okTrace, successSummary, stepOrder, stepEvent, closesOf, sinkName, jobOrder, createdNames], fun _ => rfl⟩

/-- A command is started only after all four output files have been created. -/
theorem displayPcapFile_start_after_creates (w : World) (f l a : String)
    (h : startedCmds (displayPcapFile w f l a) ≠ []) :
    ∀ j, Event.create (sinkName j) none ∈ displayPcapFile w f l a := by
  rcases displayPcapFile_path w f l a with ⟨k, s, e, hk, hs, hpre, hfail, ht⟩ | ⟨hall, ht⟩
  · rw [ht] at h ⊢
    interval_cases k <;> simp [stepOrder] at hs <;> subst hs <;>
      first
        | (exfalso; simp [failTrace, okTrace, successSummary, stepOrder, stepEvent, closesOf, sinkName, startedCmds] at h; done)
        | (intro j; cases j <;> simp [failTrace, okTrace, successSummary, stepOrder, stepEvent, closesOf, sinkName])
  · rw [ht]
    intro j; cases j <;> simp [failTrace, okTrace, successSummary, stepOrder, stepEvent, closesOf, sinkName]

/-- The events of `startTshark`. -/
theorem startTshark_eq (w : World) :
    startTshark w = [Event.start captureCmd w.captureStart,
      match w.captureStart with
      | some e => Event.printf "Error starting TShark: %v\n" [e]
      | none => Event.println ["TShark started. Capturing 1000 packets to capture.pcap..."]] := by
  rcases h : w.captureStart with _ | e <;>
    simp [startTshark, runFrame, startTsharkBody, Cmd.Start, emit, fmtPrintf, fmtPrintln, StateT.run,
      bind, StateT.bind, modify, modifyGet, MonadStateOf.modifyGet, StateT.modifyGet, pure,
      StateT.pure, h]

/-- The events of `main`: capture start, the delay, then the analysis. -/
theorem main_eq (w : World) :
    main w = startTshark w
      ++ [Event.println ["Waiting for TShark capture to finish..."], Event.sleep (15 * Second)]
      ++ displayPcapFile w "capture.pcap" "127.0.0.1" "192.168.51.172" := by
  simp [main, runFrame, mainBody, call, timeSleep, emit, fmtPrintln, StateT.run,
    bind, StateT.bind, modify, modifyGet, MonadStateOf.modifyGet, StateT.modifyGet, pure,
    StateT.pure]

/-- In a list made of a part without waits followed by a part without starts,
a wait has all the starts of the first part before it and none after it. -/
theorem starts_then_waits (A B : List Event) (hA : ∀ e ∈ A, e.isWait = false)
    (hB : ∀ e ∈ B, e.isStart = false) (pre post : List Event) (ev : Event)
    (h : A ++ B = pre ++ ev :: post) (hev : ev.isWait = true) :
    pre.filter Event.isStart = A.filter Event.isStart ∧ ∀ e ∈ post, e.isStart = false := by
  rcases List.append_eq_append_iff.mp h with ⟨a', hpre, hB'⟩ | ⟨c', hA', hpost⟩
  · subst hpre
    constructor
    · rw [List.filter_append]
      have : a'.filter Event.isStart = [] := by
        rw [List.filter_eq_nil_iff]
        intro x hx
        have := hB x (by rw [hB']; simp [hx])
        simp [this]
      simp [this]
    · intro x hx
      exact hB x (by rw [hB']; simp [hx])
  · cases c' with
    | nil =>
      simp at hA' hpost
      subst hA'
      refine ⟨rfl, ?_⟩
      intro x hx
      exact hB x (by rw [← hpost]; simp [hx])
    | cons c cs =>
      simp at hpost
      obtain ⟨hc, _⟩ := hpost
      subst hc
      have := hA ev (by rw [hA']; simp)
      simp [this] at hev

/-! ## The claims -/

/-- C1: if at least one of the four `os.Create` calls fails, the run of
`displayPcapFile` contains no `Start` event, whatever the outcomes of the
other steps are. -/
theorem C1_create_failure_starts_nothing (w : World) (filename localIP wlanIP : String)
    (h : ∃ j, w.create j ≠ none) :
    ∀ ev ∈ displayPcapFile w filename localIP wlanIP, ev.isStart = false := by
  obtain ⟨j, hj⟩ := h
  rcases displayPcapFile_path w filename localIP wlanIP with ⟨k, s, e, hk, hs, hpre, hfail, ht⟩ | ⟨hall, ht⟩
  · rw [ht]
    interval_cases k <;> simp [stepOrder] at hs <;> subst hs <;>
      simp [stepOrder, World.outcome] at hpre hfail <;>
      first
        | (simp [failTrace, stepOrder, stepEvent, closesOf, Event.isStart]; done)
        | (exfalso; cases j <;> simp_all)
  · simp [stepOrder, World.outcome] at hall
    exfalso; cases j <;> simp_all

/-- C1 at a concrete input: the third `os.Create` fails. -/
theorem C1_witness :
    (∃ j, thirdCreateFails.create j ≠ none)
      ∧ ∀ ev ∈ displayPcapFile thirdCreateFails "capture.pcap" "127.0.0.1" "192.168.51.172", ev.isStart = false :=
  ⟨⟨Job.wlanSend, by decide⟩,
    C1_create_failure_starts_nothing thirdCreateFails _ _ _ ⟨Job.wlanSend, by decide⟩⟩

/-- C2 fails on the code: when all four commands start and the first `Wait`
returns an error, the run calls `Start` on all four commands, successfully,
and calls `Wait` on the first one only; the three others are never waited
on. -/
theorem C2_started_jobs_left_unawaited :
    (displayPcapFile firstWaitFails "capture.pcap" "127.0.0.1" "192.168.51.172").filter Event.isStart
        = [Event.start (jobCmd "capture.pcap" "127.0.0.1" "192.168.51.172" Job.localSend) none,
           Event.start (jobCmd "capture.pcap" "127.0.0.1" "192.168.51.172" Job.localReceive) none,
           Event.start (jobCmd "capture.pcap" "127.0.0.1" "192.168.51.172" Job.wlanSend) none,
           Event.start (jobCmd "capture.pcap" "127.0.0.1" "192.168.51.172" Job.wlanReceive) none]
      ∧ (displayPcapFile firstWaitFails "capture.pcap" "127.0.0.1" "192.168.51.172").filter Event.isWait
        = [Event.wait (jobCmd "capture.pcap" "127.0.0.1" "192.168.51.172" Job.localSend) (some "exit status 2")] := by
  decide

/-- C3: in every run of `displayPcapFile`, a file is closed exactly once if
its `os.Create` was performed and succeeded, and is not closed at all
otherwise (its `os.Create` failed or was never attempted); this covers the
success path and every early return. -/
theorem C3_closed_exactly_once (w : World) (filename localIP wlanIP : String) (file : File) :
    (displayPcapFile w filename localIP wlanIP).count (Event.close file)
      = if Event.create file.name none ∈ displayPcapFile w filename localIP wlanIP
        then 1 else 0 := by
  obtain ⟨name⟩ := file
  have hcases : name = "local-send.json" ∨ name = "local-receive.json" ∨ name = "wlan0-send.json"
      ∨ name = "wlan0-receive.json" ∨ (name ≠ "local-send.json" ∧ name ≠ "local-receive.json"
        ∧ name ≠ "wlan0-send.json" ∧ name ≠ "wlan0-receive.json") := by tauto
  rcases displayPcapFile_path w filename localIP wlanIP with ⟨k, s, e, hk, hs, hpre, hfail, ht⟩ | ⟨hall, ht⟩
  · rw [ht]
    interval_cases k <;> simp [stepOrder] at hs <;> subst hs <;>
      simp [failTrace, stepOrder, stepEvent, closesOf, sinkName, List.count_cons] <;>
      rcases hcases with h | h | h | h | ⟨h1, h2, h3, h4⟩ <;>
      first
        | (subst h; decide)
        | simp [h1, h2, h3, h4, Ne.symm h1, Ne.symm h2, Ne.symm h3, Ne.symm h4]
  · rw [ht]
    simp [okTrace, stepOrder, stepEvent, closesOf, sinkName, List.count_cons, successSummary]
    rcases hcases with h | h | h | h | ⟨h1, h2, h3, h4⟩ <;>
      first
        | (subst h; decide)
        | simp [h1, h2, h3, h4, Ne.symm h1, Ne.symm h2, Ne.symm h3, Ne.symm h4]

/-- C4: wherever a `Wait` event occurs in a run of `displayPcapFile`, the
`Start` events before it are exactly the four successful starts in the order
local-send, local-receive, wlan0-send, wlan0-receive, and no `Start` event
comes after it. -/
theorem C4_all_started_before_any_wait (w : World) (filename localIP wlanIP : String)
    (pre post : List Event) (ev : Event)
    (h : displayPcapFile w filename localIP wlanIP = pre ++ ev :: post)
    (hev : ev.isWait = true) :
    pre.filter Event.isStart
        = [Event.start (jobCmd filename localIP wlanIP Job.localSend) none,
           Event.start (jobCmd filename localIP wlanIP Job.localReceive) none,
           Event.start (jobCmd filename localIP wlanIP Job.wlanSend) none,
           Event.start (jobCmd filename localIP wlanIP Job.wlanReceive) none]
      ∧ ∀ e ∈ post, e.isStart = false := by
  have hex : ∃ x ∈ displayPcapFile w filename localIP wlanIP, x.isWait = true :=
    ⟨ev, by rw [h]; simp, hev⟩
  have key := starts_then_waits ((displayPcapFile w filename localIP wlanIP).take 9)
    ((displayPcapFile w filename localIP wlanIP).drop 9)
  rw [List.take_append_drop] at key
  rcases displayPcapFile_path w filename localIP wlanIP with ⟨k, s, e, hk, hs, hpre, hfail, ht⟩ | ⟨hall, ht⟩
  · rw [ht] at hex key
    interval_cases k <;> simp [stepOrder] at hs <;> subst hs <;>
      first
        | (exfalso
           simp [failTrace, stepOrder, stepEvent, closesOf, sinkName, Event.isWait] at hex
           done)
        | (have key2 := key
             (by simp [failTrace, stepOrder, stepEvent, closesOf, sinkName, Event.isWait])
             (by simp [failTrace, stepOrder, stepEvent, closesOf, sinkName, Event.isStart])
             pre post ev (ht ▸ h) hev
           simpa [failTrace, stepOrder, stepEvent, closesOf, sinkName, Event.isStart] using key2)
  · rw [ht] at hex key
    have hA : ∀ x ∈ (okTrace filename localIP wlanIP).take 9, x.isWait = false := by
      simp [okTrace, stepOrder, stepEvent, closesOf, sinkName, Event.isWait, successSummary]
    have hB : ∀ x ∈ (okTrace filename localIP wlanIP).drop 9, x.isStart = false := by
      simp [okTrace, stepOrder, stepEvent, closesOf, sinkName, Event.isStart, successSummary]
    have key2 := key hA hB pre post ev (ht ▸ h) hev
    simpa [okTrace, stepOrder, stepEvent, closesOf, sinkName, Event.isStart, successSummary] using key2

/-- C4 at a concrete input: the first `Wait` of the run in which every step
succeeds. -/
theorem C4_witness :
    displayPcapFile allOk "capture.pcap" "127.0.0.1" "192.168.51.172"
        = (displayPcapFile allOk "capture.pcap" "127.0.0.1" "192.168.51.172").take 9
          ++ Event.wait (jobCmd "capture.pcap" "127.0.0.1" "192.168.51.172" Job.localSend) none
            :: (displayPcapFile allOk "capture.pcap" "127.0.0.1" "192.168.51.172").drop 10
      ∧ ((displayPcapFile allOk "capture.pcap" "127.0.0.1" "192.168.51.172").take 9).filter Event.isStart
        = [Event.start (jobCmd "capture.pcap" "127.0.0.1" "192.168.51.172" Job.localSend) none,
           Event.start (jobCmd "capture.pcap" "127.0.0.1" "192.168.51.172" Job.localReceive) none,
           Event.start (jobCmd "capture.pcap" "127.0.0.1" "192.168.51.172" Job.wlanSend) none,
           Event.start (jobCmd "capture.pcap" "127.0.0.1" "192.168.51.172" Job.wlanReceive) none] :=
  ⟨by decide,
    (C4_all_started_before_any_wait allOk "capture.pcap" "127.0.0.1" "192.168.51.172"
      ((displayPcapFile allOk "capture.pcap" "127.0.0.1" "192.168.51.172").take 9)
      ((displayPcapFile allOk "capture.pcap" "127.0.0.1" "192.168.51.172").drop 10)
      (Event.wait (jobCmd "capture.pcap" "127.0.0.1" "192.168.51.172" Job.localSend) none)
      (by decide) rfl).1⟩

/-- C5: for arbitrary `filename`, `localIP` and `wlanIP`, the four filter
commands are invocations of "tshark" with arguments
`-r filename -T json -Y P`, where `P` is `ip.src == localIP`,
`ip.dst == localIP`, `ip.src == wlanIP` and `ip.dst == wlanIP`; the commands
started and waited on in any run are these, in this order, and all four are
started when the creations and starts succeed. -/
theorem C5_filter_commands (w : World) (filename localIP wlanIP : String) :
    (∀ out, localSendCmd filename localIP out
        = ⟨"tshark", ["-r", filename, "-T", "json", "-Y", "ip.src == " ++ localIP], out⟩)
      ∧ (∀ out, localReceiveCmd filename localIP out
        = ⟨"tshark", ["-r", filename, "-T", "json", "-Y", "ip.dst == " ++ localIP], out⟩)
      ∧ (∀ out, wlanSendCmd filename wlanIP out
        = ⟨"tshark", ["-r", filename, "-T", "json", "-Y", "ip.src == " ++ wlanIP], out⟩)
      ∧ (∀ out, wlanReceiveCmd filename wlanIP out
        = ⟨"tshark", ["-r", filename, "-T", "json", "-Y", "ip.dst == " ++ wlanIP], out⟩)
      ∧ (startedCmds (displayPcapFile w filename localIP wlanIP)).map (fun c => (c.name, c.args))
          <+: filterSpecs filename localIP wlanIP
      ∧ (waitedCmds (displayPcapFile w filename localIP wlanIP)).map (fun c => (c.name, c.args))
          <+: filterSpecs filename localIP wlanIP
      ∧ ((∀ j, w.create j = none ∧ w.start j = none) →
          (startedCmds (displayPcapFile w filename localIP wlanIP)).map (fun c => (c.name, c.args))
            = filterSpecs filename localIP wlanIP) := by
  have hspec : (jobOrder.map (jobCmd filename localIP wlanIP)).map (fun c => (c.name, c.args))
      = filterSpecs filename localIP wlanIP := by
    simp [jobOrder, jobCmd, filterSpecs, localSendCmd, localReceiveCmd, wlanSendCmd,
      wlanReceiveCmd, execCommand]
  obtain ⟨n, hn, hn4⟩ := displayPcapFile_started w filename localIP wlanIP
  obtain ⟨m, hm, -⟩ := displayPcapFile_waited w filename localIP wlanIP
  refine ⟨fun _ => rfl, fun _ => rfl, fun _ => rfl, fun _ => rfl, ?_, ?_, ?_⟩
  · rw [hn, ← hspec]
    exact (List.take_prefix _ _).map _
  · rw [hm, ← hspec]
    exact (List.take_prefix _ _).map _
  · intro hall
    rw [hn, hn4 hall, ← hspec]
    simp [jobOrder]

/-- C5 at a concrete input: the run in which every step succeeds. -/
theorem C5_witness :
    (∀ j, allOk.create j = none ∧ allOk.start j = none)
      ∧ (startedCmds (displayPcapFile allOk "capture.pcap" "127.0.0.1" "192.168.51.172")).map (fun c => (c.name, c.args))
        = filterSpecs "capture.pcap" "127.0.0.1" "192.168.51.172" :=
  ⟨fun _ => ⟨rfl, rfl⟩,
    (C5_filter_commands allOk "capture.pcap" "127.0.0.1" "192.168.51.172").2.2.2.2.2.2 (fun _ => ⟨rfl, rfl⟩)⟩

/-- C6: each job's command has as `Stdout` the sink named
`scope-direction.json` after its own predicate (source match gives "send",
destination match gives "receive", `localIP` gives "local", `wlanIP` gives
"wlan0"); the four sink names are pairwise distinct, the files created and
the commands started in a run follow the job order, no sink is the `Stdout`
of two started commands, and every started command writes to a file that
was created in the run. -/
theorem C6_sinks_one_to_one (w : World) (filename localIP wlanIP : String) :
    (∀ j, jobCmd filename localIP wlanIP j
        = { name := "tshark"
            args := ["-r", filename, "-T", "json", "-Y",
              j.direction.field ++ " == " ++ j.scope.address localIP wlanIP]
            Stdout := some ⟨derivedSinkName j.scope j.direction⟩ })
      ∧ startedCmds (displayPcapFile w filename localIP wlanIP)
          <+: jobOrder.map (jobCmd filename localIP wlanIP)
      ∧ createdNames (displayPcapFile w filename localIP wlanIP)
          <+: jobOrder.map (fun j => derivedSinkName j.scope j.direction)
      ∧ (jobOrder.map (fun j => derivedSinkName j.scope j.direction)).Nodup
      ∧ (createdNames (displayPcapFile w filename localIP wlanIP)).Nodup
      ∧ ((startedCmds (displayPcapFile w filename localIP wlanIP)).map Cmd.Stdout).Nodup
      ∧ (∀ c ∈ startedCmds (displayPcapFile w filename localIP wlanIP),
          ∃ out, c.Stdout = some out
            ∧ Event.create out.name none ∈ displayPcapFile w filename localIP wlanIP) := by
  have hname : ∀ j, sinkName j = derivedSinkName j.scope j.direction := by
    intro j; cases j <;> decide
  have hnames : jobOrder.map sinkName = jobOrder.map (fun j => derivedSinkName j.scope j.direction) := by
    simp [hname]
  have hnodup : (jobOrder.map (fun j => derivedSinkName j.scope j.direction)).Nodup := by decide
  have hcmd : ∀ j, (jobCmd filename localIP wlanIP j).Stdout = some ⟨sinkName j⟩ := by
    intro j; cases j <;> rfl
  obtain ⟨n, hn, -⟩ := displayPcapFile_started w filename localIP wlanIP
  obtain ⟨m, hm, -⟩ := displayPcapFile_created w filename localIP wlanIP
  have hstart := displayPcapFile_start_after_creates w filename localIP wlanIP
  refine ⟨?_, ?_, ?_, hnodup, ?_, ?_, ?_⟩
  · intro j
    cases j <;>
      simp [jobCmd, localSendCmd, localReceiveCmd, wlanSendCmd, wlanReceiveCmd, execCommand,
        Job.direction, Job.scope, Direction.field, Scope.address, derivedSinkName]
      <;> decide
  · rw [hn]; exact List.take_prefix _ _
  · rw [hm, hnames]; exact List.take_prefix _ _
  · rw [hm, hnames]; exact hnodup.sublist (List.take_sublist _ _)
  · rw [hn]
    refine List.Nodup.sublist ((List.take_sublist _ _).map _) ?_
    simp only [List.map_map]
    have : (Cmd.Stdout ∘ jobCmd filename localIP wlanIP) = fun j => some ⟨sinkName j⟩ := by
      funext j; exact hcmd j
    rw [this]
    simp [jobOrder, sinkName]
  · intro c hc
    have hne : startedCmds (displayPcapFile w filename localIP wlanIP) ≠ [] :=
      List.ne_nil_of_mem hc
    rw [hn] at hc
    obtain ⟨j, -, rfl⟩ := List.mem_map.mp (List.mem_of_mem_take hc)
    exact ⟨⟨sinkName j⟩, hcmd j, hstart hne j⟩

/-- C6 at a concrete input: the first command of the run in which every
step succeeds. -/
theorem C6_witness :
    jobCmd "capture.pcap" "127.0.0.1" "192.168.51.172" Job.localSend ∈ startedCmds (displayPcapFile allOk "capture.pcap" "127.0.0.1" "192.168.51.172")
      ∧ ∃ out, (jobCmd "capture.pcap" "127.0.0.1" "192.168.51.172" Job.localSend).Stdout = some out
          ∧ Event.create out.name none ∈ displayPcapFile allOk "capture.pcap" "127.0.0.1" "192.168.51.172" :=
  ⟨by decide,
    (C6_sinks_one_to_one allOk "capture.pcap" "127.0.0.1" "192.168.51.172").2.2.2.2.2.2 _ (by decide)⟩

/-- C7 fails on the code: in the world where starting the capture process
fails and everything else succeeds, the run of `main` still creates
"local-send.json", still starts the first filter command, and ends with the
whole run of `displayPcapFile`. -/
theorem C7_capture_failure_does_not_abort :
    captureFails.captureStart ≠ none
      ∧ Event.create "local-send.json" none ∈ main captureFails
      ∧ Event.start (jobCmd "capture.pcap" "127.0.0.1" "192.168.51.172" Job.localSend) none ∈ main captureFails
      ∧ displayPcapFile captureFails "capture.pcap" "127.0.0.1" "192.168.51.172" <:+ main captureFails := by
  decide

/-- C7 as amended: if starting the capture process fails with error `e`,
`startTshark` prints the error message and nothing else, and `main` goes on
as usual: it prints the waiting message, sleeps 15 seconds and calls
`displayPcapFile` on "capture.pcap" with the two addresses. -/
theorem C7_capture_failure_only_reported (w : World) (e : String)
    (h : w.captureStart = some e) :
    main w = [Event.start captureCmd (some e),
              Event.printf "Error starting TShark: %v\n" [e],
              Event.println ["Waiting for TShark capture to finish..."],
              Event.sleep (15 * Second)]
        ++ displayPcapFile w "capture.pcap" "127.0.0.1" "192.168.51.172" := by
  rw [main_eq, startTshark_eq, h]
  simp

/-- C7 as amended, at a concrete input. -/
theorem C7_witness :
    captureFails.captureStart = some "executable file not found"
      ∧ main captureFails
        = [Event.start captureCmd (some "executable file not found"),
           Event.printf "Error starting TShark: %v\n" ["executable file not found"],
           Event.println ["Waiting for TShark capture to finish..."],
           Event.sleep (15 * Second)]
          ++ displayPcapFile captureFails "capture.pcap" "127.0.0.1" "192.168.51.172" :=
  ⟨rfl, C7_capture_failure_only_reported captureFails _ rfl⟩

/-- C8: every run of `main` is: the start of the capture command
`tshark -i any -w capture.pcap -c 1000`, the message of `startTshark`, the
waiting message, one sleep of 15 seconds (15000000000 ns), then the run of
`displayPcapFile` on "capture.pcap", "127.0.0.1" and "192.168.51.172"; the
capture command is never waited on, and the analysis neither sleeps nor
starts the capture command. -/
theorem C8_phases_in_sequence (w : World) :
    (∃ msg,
        ((∃ e, w.captureStart = some e ∧ msg = Event.printf "Error starting TShark: %v\n" [e])
          ∨ (w.captureStart = none ∧ msg
              = Event.println ["TShark started. Capturing 1000 packets to capture.pcap..."]))
        ∧ main w
          = [Event.start ⟨"tshark", ["-i", "any", "-w", "capture.pcap", "-c", "1000"], none⟩
                w.captureStart,
             msg,
             Event.println ["Waiting for TShark capture to finish..."],
             Event.sleep 15000000000]
            ++ displayPcapFile w "capture.pcap" "127.0.0.1" "192.168.51.172")
      ∧ (∀ ev ∈ main w, ∀ err, ev ≠ Event.wait captureCmd err)
      ∧ (∀ ev ∈ displayPcapFile w "capture.pcap" "127.0.0.1" "192.168.51.172",
          (∀ d, ev ≠ Event.sleep d) ∧ (∀ c err, ev = Event.start c err → c ≠ captureCmd)) := by
  have hdisp : ∀ ev ∈ displayPcapFile w "capture.pcap" "127.0.0.1" "192.168.51.172",
      (∀ d, ev ≠ Event.sleep d) ∧ (∀ c err, ev = Event.start c err → c ≠ captureCmd)
        ∧ (∀ err, ev ≠ Event.wait captureCmd err) := by
    rcases displayPcapFile_path w "capture.pcap" "127.0.0.1" "192.168.51.172"
      with ⟨k, s, e, hk, hs, hpre, hfail, ht⟩ | ⟨hall, ht⟩
    · rw [ht]
      interval_cases k <;> simp [stepOrder] at hs <;> subst hs <;>
        simp [failTrace, stepOrder, stepEvent, closesOf, sinkName, jobCmd, localSendCmd,
          localReceiveCmd, wlanSendCmd, wlanReceiveCmd, execCommand, captureCmd]
    · rw [ht]
      simp [okTrace, successSummary, stepOrder, stepEvent, closesOf, sinkName, jobCmd, localSendCmd,
          localReceiveCmd, wlanSendCmd, wlanReceiveCmd, execCommand, captureCmd]
  refine ⟨?_, ?_, fun ev hev => ⟨(hdisp ev hev).1, (hdisp ev hev).2.1⟩⟩
  · rw [main_eq, startTshark_eq]
    rcases h : w.captureStart with _ | e
    · exact ⟨_, Or.inr ⟨rfl, rfl⟩, by simp [captureCmd, execCommand, Second]⟩
    · exact ⟨_, Or.inl ⟨e, rfl, rfl⟩, by simp [captureCmd, execCommand, Second]⟩
  · intro ev hev err
    rw [main_eq, startTshark_eq] at hev
    simp only [List.mem_append, List.mem_cons, List.mem_singleton, List.not_mem_nil, or_false] at hev
    rcases hev with ((h | h) | h | h) | h
    · simp [h]
    · rcases hc : w.captureStart with _ | e <;> simp [h, hc]
    · simp [h]
    · simp [h]
    · exact (hdisp ev h).2.2 err

/-- C8 at a concrete input: the sleep of the run in which every step
succeeds is not a wait on the capture command. -/
theorem C8_witness :
    Event.sleep 15000000000 ∈ main allOk
      ∧ Event.sleep 15000000000 ≠ Event.wait captureCmd none :=
  ⟨by decide, (C8_phases_in_sequence allOk).2.1 _ (by decide) none⟩

/-- C9: each line of the success summary is printed if and only if all
four `os.Create`, all four `Start` and all four `Wait` calls succeed; when
they do, the run ends with the five summary lines followed by the closing of
the four files, and the summary lists exactly the four files created. -/
theorem C9_summary_iff_all_succeed (w : World) (filename localIP wlanIP : String) :
    (∀ ev ∈ successSummary,
        ev ∈ displayPcapFile w filename localIP wlanIP
          ↔ ∀ j, w.create j = none ∧ w.start j = none ∧ w.wait j = none)
      ∧ ((∀ j, w.create j = none ∧ w.start j = none ∧ w.wait j = none) →
          (∃ pre, displayPcapFile w filename localIP wlanIP = pre ++ successSummary ++ allCloses)
          ∧ createdNames (displayPcapFile w filename localIP wlanIP)
              = ["local-send.json", "local-receive.json", "wlan0-send.json", "wlan0-receive.json"]
          ∧ successSummary = Event.println ["Traffic data captured:"]
              :: (createdNames (displayPcapFile w filename localIP wlanIP)).map
                  (fun n => Event.println ["- '" ++ n ++ "'"])) := by
  rcases displayPcapFile_path w filename localIP wlanIP with ⟨k, s, e, hk, hs, hpre, hfail, ht⟩ | ⟨hall, ht⟩
  · have hno : ¬ (∀ j, w.create j = none ∧ w.start j = none ∧ w.wait j = none) := by
      intro hP
      have h1 := hP Job.localSend
      have h2 := hP Job.localReceive
      have h3 := hP Job.wlanSend
      have h4 := hP Job.wlanReceive
      interval_cases k <;> simp [stepOrder] at hs <;> subst hs <;>
        simp [World.outcome] at hfail <;> simp_all
    refine ⟨?_, fun h => absurd h hno⟩
    rw [ht]
    interval_cases k <;> simp [stepOrder] at hs <;> subst hs <;>
      simp [failTrace, successSummary, stepOrder, stepEvent, closesOf, sinkName, hno]
  · have hyes : (∀ j, w.create j = none ∧ w.start j = none ∧ w.wait j = none) := by
      intro j
      simp [stepOrder, World.outcome] at hall
      cases j <;> simp_all
    rw [ht]
    refine ⟨?_, fun _ => ⟨⟨[Event.println ["Analyzing file", filename]]
      ++ stepOrder.map (fun t => stepEvent filename localIP wlanIP t none), ?_⟩, ?_, ?_⟩⟩
    · simp [okTrace, successSummary, stepOrder, stepEvent, closesOf, sinkName, hyes]
    · simp [okTrace, stepOrder, closesOf, sinkName, allCloses]
    · simp [okTrace, successSummary, stepOrder, stepEvent, closesOf, sinkName, createdNames]
    · simp [okTrace, successSummary, stepOrder, stepEvent, closesOf, sinkName, createdNames]

/-- C9 at a concrete input: the run in which every step succeeds prints the
first summary line and ends with the summary and the four closings. -/
theorem C9_witness :
    (∀ j, allOk.create j = none ∧ allOk.start j = none ∧ allOk.wait j = none)
      ∧ Event.println ["Traffic data captured:"] ∈ displayPcapFile allOk "capture.pcap" "127.0.0.1" "192.168.51.172"
      ∧ ∃ pre, displayPcapFile allOk "capture.pcap" "127.0.0.1" "192.168.51.172" = pre ++ successSummary ++ allCloses :=
  ⟨fun _ => ⟨rfl, rfl, rfl⟩,
    ((C9_summary_iff_all_succeed allOk "capture.pcap" "127.0.0.1" "192.168.51.172").1 _ (by decide)).2 (fun _ => ⟨rfl, rfl, rfl⟩),
    ((C9_summary_iff_all_succeed allOk "capture.pcap" "127.0.0.1" "192.168.51.172").2 (fun _ => ⟨rfl, rfl, rfl⟩)).1⟩

/-- C10: whenever some step fails, there is a first failing step `s` in the
order Create x4, Start x4, Wait x4: the run is the opening message, the
steps before `s` (all successful), the failing step, one error message naming
`s`, and then only the closing of the files already opened; that error
message is the only `Printf` of the run. -/
theorem C10_returns_on_first_failure (w : World) (filename localIP wlanIP : String)
    (h : ∃ s ∈ stepOrder, w.outcome s ≠ none) :
    ∃ k s e, stepOrder[k]? = some s
      ∧ (∀ t ∈ stepOrder.take k, w.outcome t = none)
      ∧ w.outcome s = some e
      ∧ displayPcapFile w filename localIP wlanIP
          = [Event.println ["Analyzing file", filename]]
            ++ (stepOrder.take k).map (fun t => stepEvent filename localIP wlanIP t none)
            ++ [stepEvent filename localIP wlanIP s (some e), Event.printf (errorFormat s) [e]]
            ++ closesOf (stepOrder.take k)
      ∧ (displayPcapFile w filename localIP wlanIP).filter Event.isPrintf
          = [Event.printf (errorFormat s) [e]] := by
  rcases displayPcapFile_path w filename localIP wlanIP with ⟨k, s, e, hk, hs, hpre, hfail, ht⟩ | ⟨hall, ht⟩
  · refine ⟨k, s, e, hs, hpre, hfail, ht, ?_⟩
    rw [ht]
    interval_cases k <;> simp [stepOrder] at hs <;> subst hs <;>
      simp [failTrace, stepOrder, stepEvent, closesOf, sinkName, Event.isPrintf]
  · obtain ⟨s, hs, hne⟩ := h
    exact absurd (hall s hs) hne

/-- C10 at a concrete input: the third `os.Create` fails. -/
theorem C10_witness :
    (∃ s ∈ stepOrder, thirdCreateFails.outcome s ≠ none)
      ∧ ∃ k s e, stepOrder[k]? = some s
        ∧ (∀ t ∈ stepOrder.take k, thirdCreateFails.outcome t = none)
        ∧ thirdCreateFails.outcome s = some e
        ∧ displayPcapFile thirdCreateFails "capture.pcap" "127.0.0.1" "192.168.51.172"
            = [Event.println ["Analyzing file", "capture.pcap"]]
              ++ (stepOrder.take k).map
                  (fun t => stepEvent "capture.pcap" "127.0.0.1" "192.168.51.172" t none)
              ++ [stepEvent "capture.pcap" "127.0.0.1" "192.168.51.172" s (some e),
                  Event.printf (errorFormat s) [e]]
              ++ closesOf (stepOrder.take k)
        ∧ (displayPcapFile thirdCreateFails "capture.pcap" "127.0.0.1" "192.168.51.172").filter Event.isPrintf
            = [Event.printf (errorFormat s) [e]] :=
  ⟨⟨⟨Phase.create, Job.wlanSend⟩, by decide, by decide⟩,
    C10_returns_on_first_failure thirdCreateFails _ _ _
      ⟨⟨Phase.create, Job.wlanSend⟩, by decide, by decide⟩⟩

end TsharkPipeline
